import Mathlib

/-!
Verification of the conversation-relay pipeline of the ESGIS Telegram chatbot.

The development shallowly embeds the Python sources:
  * `src/db/adapters/memory_adapter.py`  (volatile in-memory storage variant)
  * `src/db/adapters/dynamo_adapter.py`  (partitioned-store / DynamoDB variant)
  * `src/services/mistral_client.py`     (completion provider client)
  * `src/services/telegram_service.py`   (conversation relay, `process_message`)

Conventions of the embedding:
  * Python dicts keyed by chat id are modelled by their lookup function
    (`chat_id` maps to the stored list, an absent key maps to `[]`), which is
    observationally identical to `dict.get(chat_id, [])` plus the membership
    checks performed by the source.
  * The wall clock read by the DynamoDB adapter (`int(time.time() * 1000)`)
    is an external input and becomes an explicit `timestamp` parameter.
  * The DynamoDB table is a list of items kept sorted by the composite key
    `(PK, SK)` (string order), which is how the store keeps and scans them;
    `put_item` inserts at the key position, replacing an item with an equal
    key (upsert).  A query with `ScanIndexForward=False` scans the matching
    items in descending key order.  `botocore` rejects a query `Limit` below
    1 with a `ParamValidationError`, which is not a `ClientError` and hence
    is not caught by the adapter's `except ClientError` handler.
  * The HTTP layer under the Mistral client is an external input as well: an
    invocation of `requests.post` + `raise_for_status` + body extraction is
    summarised by an `HttpOutcome` value.
-/

set_option linter.unusedVariables false

/-- A stored chat message as the adapters return it: the Python dict
`{'from': ..., 'content': ...}`.  `sender` models the `'from'` key. -/
structure Msg where
  sender : String
  content : String
deriving DecidableEq, Repr

/-- A provider-facing conversation turn: the dict `{'role': ..., 'content': ...}`. -/
structure RoleMsg where
  role : String
  content : String
deriving DecidableEq, Repr

/-! ## Volatile variant: `MemoryAdapter` (src/db/adapters/memory_adapter.py) -/

/-- The in-memory store `self.conversations`, modelled by its lookup function. -/
def MemStore : Type := Int → List Msg

/-- The everywhere-empty store (a freshly constructed `MemoryAdapter`). -/
def memEmpty : MemStore := fun _ => []

/-- `MemoryAdapter.save_message`: appends `{'from': 'user', 'content': message}`
to the conversation of `chat_id` (creating it when absent). -/
def MemoryAdapter.save_message (st : MemStore) (chat_id : Int)
    (username message : String) : MemStore :=
  fun c => if c = chat_id then st chat_id ++ [⟨"user", message⟩] else st c

/-- `MemoryAdapter.save_response`: appends `{'from': 'assistant', 'content': response}`. -/
def MemoryAdapter.save_response (st : MemStore) (chat_id : Int)
    (response : String) : MemStore :=
  fun c => if c = chat_id then st chat_id ++ [⟨"assistant", response⟩] else st c

/-- `MemoryAdapter.get_conversation`: returns `messages[-limit:] if limit > 0
else messages`.  The Python slice `l[-k:]` for `k > 0` keeps the last
`min k l.length` elements, which is `l.drop (l.length - k)`.  The store is
returned unchanged (the method performs no write). -/
def MemoryAdapter.get_conversation (st : MemStore) (chat_id : Int)
    (limit : Int) : MemStore × List Msg :=
  let messages := st chat_id
  (st, if 0 < limit then messages.drop (messages.length - limit.toNat) else messages)

/-- `MemoryAdapter.reset_conversation`: sets the conversation of `chat_id` to `[]`
(when the key is absent the source does nothing, which is observationally
the same under the lookup-function model). -/
def MemoryAdapter.reset_conversation (st : MemStore) (chat_id : Int) : MemStore :=
  fun c => if c = chat_id then [] else st c

/-! ## Completion provider client: `MistralClient` (src/services/mistral_client.py) -/

/-- Outcome of the single HTTP exchange performed by `get_completion`
(`requests.post` with `raise_for_status` and extraction of
`response.json()['choices'][0]['message']['content']`):
  * `success content` — 2xx response with the given completion text;
  * `timeout` — `requests.exceptions.Timeout`;
  * `connectionError` — `requests.exceptions.ConnectionError`;
  * `httpError status` — `requests.exceptions.HTTPError` raised by
    `raise_for_status`, carrying the response with that status code;
  * `requestError` — any other `requests.exceptions.RequestException`. -/
inductive HttpOutcome where
  | success (content : String)
  | timeout
  | connectionError
  | httpError (status : Int)
  | requestError
deriving DecidableEq, Repr

def MistralClient.fallbackTimeout : String :=
  "Désolé, l\x27API Mistral met trop de temps à répondre. Veuillez réessayer dans quelques instants."

def MistralClient.fallbackConnection : String :=
  "Désolé, je ne peux pas me connecter à l\x27API Mistral en ce moment. Veuillez réessayer plus tard."

def MistralClient.fallbackAuth : String :=
  "Désolé, il y a un problème d\x27authentification avec l\x27API Mistral. Veuillez contacter l\x27administrateur."

def MistralClient.fallbackHttp : String :=
  "Désolé, j\x27ai rencontré une erreur lors de la communication avec l\x27API Mistral."

def MistralClient.fallbackRequest : String :=
  "Désolé, j\x27ai rencontré une erreur lors du traitement de votre demande."

/-- The request body's `messages` list: the formatted history (returned as-is by
`_format_conversation_history`) with the current prompt appended as a final
user turn. -/
def MistralClient.messagesPayload (prompt : String) (history : List RoleMsg) : List RoleMsg :=
  history ++ [⟨"user", prompt⟩]

/-- `MistralClient.get_completion`.  On success it returns the extracted
completion text; each caught `requests` exception class maps to its fallback
string.  In the `HTTPError` branch the source guards the 401-specific reply by
`if hasattr(e, 'response') and e.response:`: `hasattr` always holds for an
error from `raise_for_status`, and the truthiness of a `requests.Response` is
its `ok` property, i.e. `status_code < 400`. -/
def MistralClient.get_completion (outcome : HttpOutcome) (prompt : String)
    (history : List RoleMsg) : String :=
  let _messages := MistralClient.messagesPayload prompt history
  match outcome with
  | .success content => content
  | .timeout => MistralClient.fallbackTimeout
  | .connectionError => MistralClient.fallbackConnection
  | .httpError status =>
      if status < 400 then
        if status = 401 then MistralClient.fallbackAuth else MistralClient.fallbackHttp
      else MistralClient.fallbackHttp
  | .requestError => MistralClient.fallbackRequest

/-! ## Partitioned-store variant: `DynamoAdapter` (src/db/adapters/dynamo_adapter.py) -/

/-- A DynamoDB attribute value (only the shapes this table uses). -/
inductive AttrVal where
  | str (s : String)
  | num (n : Int)
  | boolean (b : Bool)
deriving DecidableEq, Repr

/-- A DynamoDB item: a finite attribute map, as an association list. -/
abbrev Item : Type := List (String × AttrVal)

/-- Attribute lookup, `item.get(k)`. -/
def attrGet (it : Item) (k : String) : Option AttrVal :=
  (it.find? (fun p => p.1 == k)).map (fun p => p.2)

/-- String-attribute lookup with `""` for a missing attribute; within this
development every attribute the read path looks at is either absent or a
string, so this also models `item.get(k, '')`. -/
def attrStr (it : Item) (k : String) : String :=
  match attrGet it k with
  | some (.str s) => s
  | _ => ""

/-- The item's partition key. -/
def itemPK (it : Item) : String := attrStr it "PK"

/-- The item's sort key. -/
def itemSK (it : Item) : String := attrStr it "SK"

/-- The item's composite primary key. -/
def itemKey (it : Item) : String × String := (itemPK it, itemSK it)

/-- Strict character order by code point (equals byte order for the ASCII
keys this table uses, which is how DynamoDB compares string keys). -/
def charLtB (a b : Char) : Bool := decide (a.toNat < b.toNat)

/-- Lexicographic strict order on character lists. -/
def charsLtB : List Char → List Char → Bool
  | [], [] => false
  | [], _ :: _ => true
  | _ :: _, [] => false
  | a :: as, b :: bs => charLtB a b || (a.toNat == b.toNat && charsLtB as bs)

/-- Lexicographic strict order on strings. -/
def strLtB (a b : String) : Bool := charsLtB a.data b.data

/-- Strict order on composite keys (partition key first, then sort key,
both in string order — DynamoDB compares string keys by their bytes). -/
def keyLtB (a b : String × String) : Bool :=
  strLtB a.1 b.1 || (a.1 == b.1 && strLtB a.2 b.2)

/-- `put_item`: upsert into the key-sorted table — replace the item bearing an
equal composite key, otherwise insert at the key position. -/
def putItem : List Item → Item → List Item
  | [], it => [it]
  | x :: xs, it =>
      if itemKey it = itemKey x then it :: xs
      else if keyLtB (itemKey it) (itemKey x) then it :: x :: xs
      else x :: putItem xs it

/-- `delete_item` on the composite key `(pk, sk)`. -/
def deleteKey (table : List Item) (pk sk : String) : List Item :=
  table.filter (fun it => !(itemPK it == pk && itemSK it == sk))

/-- `p` is a leading piece of `s` (character-wise), i.e. `begins_with(s, p)`. -/
def charsLead : List Char → List Char → Bool
  | [], _ => true
  | _ :: _, [] => false
  | a :: as, b :: bs => a == b && charsLead as bs

def strLead (p s : String) : Bool := charsLead p.data s.data

/-- The key-condition query `PK = pk AND begins_with(SK, skLead)`: the matching
items in table (= ascending key) order. -/
def queryChat (table : List Item) (pk skLead : String) : List Item :=
  table.filter (fun it => itemPK it == pk && strLead skLead (itemSK it))

/-- The item written by `DynamoAdapter.save_message`. -/
def DynamoAdapter.messageItem (timestamp chat_id : Int) (username message : String) : Item :=
  [("PK", AttrVal.str ("CHAT#" ++ toString chat_id)),
   ("SK", AttrVal.str ("MSG#" ++ toString timestamp)),
   ("Type", AttrVal.str "Message"),
   ("From", AttrVal.str "user"),
   ("Username", AttrVal.str username),
   ("Content", AttrVal.str message),
   ("Timestamp", AttrVal.num timestamp)]

/-- The item written by `DynamoAdapter.save_response` (no `Username`, `From` is
`assistant`). -/
def DynamoAdapter.responseItem (timestamp chat_id : Int) (response : String) : Item :=
  [("PK", AttrVal.str ("CHAT#" ++ toString chat_id)),
   ("SK", AttrVal.str ("MSG#" ++ toString timestamp)),
   ("Type", AttrVal.str "Message"),
   ("From", AttrVal.str "assistant"),
   ("Content", AttrVal.str response),
   ("Timestamp", AttrVal.num timestamp)]

/-- `DynamoAdapter.save_message`: a `put_item` of the user-message item, keyed
`(CHAT#chat_id, MSG#timestamp)`. -/
def DynamoAdapter.save_message (table : List Item) (timestamp chat_id : Int)
    (username message : String) : List Item :=
  putItem table (DynamoAdapter.messageItem timestamp chat_id username message)

/-- `DynamoAdapter.save_response`: a `put_item` of the assistant-response item,
keyed `(CHAT#chat_id, MSG#timestamp)`. -/
def DynamoAdapter.save_response (table : List Item) (timestamp chat_id : Int)
    (response : String) : List Item :=
  putItem table (DynamoAdapter.responseItem timestamp chat_id response)

/-- Python truthiness of an attribute value (used by `item.get('is_bot', False)`
appearing in a condition). -/
def truthy : AttrVal → Bool
  | .str s => !(s == "")
  | .num n => !(n == 0)
  | .boolean b => b

/-- The read path's conversion of a stored item into a message dict, exactly as
the source writes it:
`{'from': 'assistant' if item.get('is_bot', False) else 'user',
  'content': item.get('content', '')}`.
Note the attribute names: the write path stores `From` and `Content`, never
`is_bot` or `content`, so on items produced by the save operations both lookups
miss and fall back to their defaults. -/
def itemToMsg (it : Item) : Msg :=
  { sender := if truthy ((attrGet it "is_bot").getD (AttrVal.boolean false)) then "assistant" else "user",
    content := attrStr it "content" }

/-- The error raised by the boto3 layer when a query is given `Limit < 1`:
`botocore` validates the `Limit` parameter against its service-model minimum
of 1 and raises `ParamValidationError`, which is not a `ClientError`. -/
inductive DynErr where
  | paramValidation
deriving DecidableEq, Repr

/-- `DynamoAdapter.get_conversation`: queries the chat partition with the
`MSG#` sort-key condition, `Limit=limit` and `ScanIndexForward=False`
(descending scan, so the `limit` most recent items), converts each scanned
item via the (mismatched) attribute lookups of `itemToMsg`, and finally
reverses into chronological order (`messages[::-1]`).  A `limit < 1` is
rejected by parameter validation before any request is made; that exception
is not a `ClientError`, so the adapter's handler does not catch it and
`get_conversation` raises. -/
def DynamoAdapter.get_conversation (table : List Item) (chat_id : Int)
    (limit : Int) : Except DynErr (List Msg) :=
  if limit < 1 then Except.error DynErr.paramValidation
  else
    let scanned := ((queryChat table ("CHAT#" ++ toString chat_id) "MSG#").reverse).take limit.toNat
    Except.ok ((scanned.map itemToMsg).reverse)

/-- `DynamoAdapter.reset_conversation`: queries every item of the chat
partition (key condition `PK = :pk`, no limit) and batch-deletes each returned
`(PK, SK)`. -/
def DynamoAdapter.reset_conversation (table : List Item) (chat_id : Int) : List Item :=
  let found := table.filter (fun it => itemPK it == "CHAT#" ++ toString chat_id)
  found.foldl (fun tb it => deleteKey tb (itemPK it) (itemSK it)) table

/-! ## Conversation relay: `TelegramService.process_message`
(src/services/telegram_service.py, lines 278-341) -/

/-- The role/content translation of the retrieved history:
`[{"role": "user" if msg.get("from") == "user" else "assistant",
   "content": msg.get("content", "")} for msg in conversation]`. -/
def roleOf (msg : Msg) : RoleMsg :=
  { role := if msg.sender == "user" then "user" else "assistant",
    content := msg.content }

def TelegramService.conversationHistory (conversation : List Msg) : List RoleMsg :=
  conversation.map roleOf

/-- The prompt the relay passes to the provider:
`conversation[-1].get("content", "") if conversation else ""` — the content of
the last *retrieved* message, not the inbound message text itself. -/
def TelegramService.promptFrom (conversation : List Msg) : String :=
  match conversation.getLast? with
  | some msg => msg.content
  | none => ""

/-- Fallback returned when the completion step (history translation, provider
call, …) raises: telegram_service.py line 336. -/
def TelegramService.fallbackGeneration : String :=
  "Désolé, une erreur est survenue lors de la génération de la réponse. Veuillez réessayer plus tard."

/-- Fallback of the outermost `except` boundary: telegram_service.py line 341. -/
def TelegramService.fallbackUnexpected : String :=
  "Désolé, une erreur inattendue est survenue. Veuillez réessayer plus tard."

/-- `process_message` instantiated with the volatile storage variant and an
explicit outcome for the provider's HTTP exchange.  It mirrors the source
line by line: save the inbound message, fetch the 5 most recent messages,
translate them, use the last retrieved message as the prompt and
`conversation_history[:-1]` as the history, call the provider, then persist
the reply — via `save_message(chat_id, "assistant", response)`, which is the
call the source makes (`save_response` is called nowhere in the repository).
Returns the final store and the reply text. -/
def TelegramService.process_message_mem (st : MemStore) (chat_id : Int)
    (username message : String) (outcome : HttpOutcome) : MemStore × String :=
  let st1 := MemoryAdapter.save_message st chat_id username message
  let conversation := (MemoryAdapter.get_conversation st1 chat_id 5).2
  let history := TelegramService.conversationHistory conversation
  let prompt := TelegramService.promptFrom conversation
  let response := MistralClient.get_completion outcome prompt history.dropLast
  let st2 := MemoryAdapter.save_message st1 chat_id "assistant" response
  (st2, response)

/-- The `(prompt, history)` pair `process_message` hands to
`get_completion`, instantiated with the partitioned storage variant (the
adapter's retrieval failure is caught and replaced by `[]`, as in the
source). -/
def TelegramService.prompt_history_dyn (table : List Item) (timestamp chat_id : Int)
    (username message : String) : String × List RoleMsg :=
  let table1 := DynamoAdapter.save_message table timestamp chat_id username message
  let conversation :=
    match DynamoAdapter.get_conversation table1 chat_id 5 with
    | Except.ok l => l
    | Except.error _ => []
  (TelegramService.promptFrom conversation,
   (TelegramService.conversationHistory conversation).dropLast)

/-- Result of one call into a collaborator: either its return value or an
arbitrary raised exception. -/
inductive Outcome (α : Type) where
  | ok (a : α)
  | exn

/-- `process_message` over arbitrary behaviours of the storage adapter and the
completion client, mirroring the source's handler structure: a save failure is
logged and ignored; a retrieval failure yields `conversation = []`; any
exception escaping the completion step (the provider call or anything around
it) is converted to `fallbackGeneration`; a failure persisting the reply is
logged and ignored.  The outermost handler (line 338) is unreachable for
these behaviours. -/
def TelegramService.process_message_gen (saveB : Outcome Unit)
    (convB : Outcome (List Msg)) (complB : String → List RoleMsg → Outcome String)
    (saveRespB : String → Outcome Unit) (chat_id : Int)
    (username message : String) : String :=
  let conversation :=
    match convB with
    | Outcome.ok l => l
    | Outcome.exn => []
  let history := TelegramService.conversationHistory conversation
  let prompt := TelegramService.promptFrom conversation
  match complB prompt history.dropLast with
  | Outcome.ok response =>
      -- the save of the reply may itself raise; that exception is caught and
      -- only logged, so it does not alter the returned value
      match saveRespB response with
      | Outcome.ok _ => response
      | Outcome.exn => response
  | Outcome.exn => TelegramService.fallbackGeneration

/-! ## Supporting lemmas -/

/-- Dropping at most the left part of an append drops inside the left part. -/
theorem drop_append_le {α : Type} (l₁ l₂ : List α) {n : Nat} (h : n ≤ l₁.length) :
    (l₁ ++ l₂).drop n = l₁.drop n ++ l₂ := by
  induction l₁ generalizing n with
  | nil =>
      have : n = 0 := Nat.le_zero.mp h
      subst this
      simp
  | cons a l ih =>
      cases n with
      | zero => simp
      | succ m =>
          simp only [List.cons_append, List.drop_succ_cons]
          exact ih (Nat.le_of_succ_le_succ h)

/-- Two consecutive `put_item` calls with equal composite keys collapse to the
second one: the second put replaces the first item. -/
theorem putItem_overwrite (T : List Item) (a b : Item) (h : itemKey a = itemKey b) :
    putItem (putItem T a) b = putItem T b := by
  induction T with
  | nil => simp [putItem, h.symm]
  | cons x xs ih =>
      by_cases h1 : itemKey a = itemKey x
      · have hbx : itemKey b = itemKey x := h.symm.trans h1
        simp [putItem, h1, hbx, h.symm]
      · have hbx : ¬ itemKey b = itemKey x := fun e => h1 (h.trans e)
        by_cases h2 : keyLtB (itemKey a) (itemKey x) = true
        · have hblt : keyLtB (itemKey b) (itemKey x) = true := h ▸ h2
          simp [putItem, h1, h2, hbx, hblt, h.symm]
        · have hblt : ¬ keyLtB (itemKey b) (itemKey x) = true := fun e => h2 (h ▸ e)
          simp [putItem, h1, h2, hbx, hblt, ih]

/-- Folding `delete_item` over a list of items removes from the table exactly
the items whose composite key equals the key of one of them. -/
theorem foldl_deleteKey (F T : List Item) :
    F.foldl (fun tb it => deleteKey tb (itemPK it) (itemSK it)) T
      = T.filter (fun x => !(F.any (fun it => itemPK x == itemPK it && itemSK x == itemSK it))) := by
  induction F generalizing T with
  | nil => simp
  | cons f F ih =>
      simp only [List.foldl_cons]
      rw [ih]
      unfold deleteKey
      rw [List.filter_filter]
      apply List.filter_congr
      intro x _
      simp only [List.any_cons, Bool.not_or]
      exact Bool.and_comm _ _

/-- `reset_conversation` removes exactly the items of the chat's partition:
the enumeration query returns every item whose partition key matches, and each
of them is then deleted by its composite key. -/
theorem reset_eq_filter (table : List Item) (chat_id : Int) :
    DynamoAdapter.reset_conversation table chat_id
      = table.filter (fun it => !(itemPK it == "CHAT#" ++ toString chat_id)) := by
  unfold DynamoAdapter.reset_conversation
  rw [foldl_deleteKey]
  apply List.filter_congr
  intro x hx
  by_cases hp : itemPK x == "CHAT#" ++ toString chat_id
  · have hmem : x ∈ table.filter (fun it => itemPK it == "CHAT#" ++ toString chat_id) :=
      List.mem_filter.mpr ⟨hx, hp⟩
    have hany : (table.filter (fun it => itemPK it == "CHAT#" ++ toString chat_id)).any
        (fun it => itemPK x == itemPK it && itemSK x == itemSK it) = true :=
      List.any_eq_true.mpr ⟨x, hmem, by simp⟩
    rw [hany, hp]
  · have hany : (table.filter (fun it => itemPK it == "CHAT#" ++ toString chat_id)).any
        (fun it => itemPK x == itemPK it && itemSK x == itemSK it) = false := by
      apply List.any_eq_false.mpr
      intro y hy
      have hpy : itemPK y == "CHAT#" ++ toString chat_id := (List.mem_filter.mp hy).2
      intro hcontra
      have h1 : itemPK x = itemPK y := by
        have := (Bool.and_eq_true _ _).mp hcontra
        exact eq_of_beq this.1
      apply hp
      rw [h1]
      exact hpy
    rw [hany]
    rw [Bool.not_eq_true] at hp
    rw [hp]

/-- After a reset, the chat's partition is empty: the message query over the
reset table matches nothing. -/
theorem queryChat_reset (table : List Item) (chat_id : Int) :
    queryChat (DynamoAdapter.reset_conversation table chat_id)
      ("CHAT#" ++ toString chat_id) "MSG#" = [] := by
  rw [reset_eq_filter]
  unfold queryChat
  rw [List.filter_filter]
  have : ∀ x ∈ table,
      ((fun it => itemPK it == "CHAT#" ++ toString chat_id && strLead "MSG#" (itemSK it)) x
        && (fun it => !(itemPK it == "CHAT#" ++ toString chat_id)) x) = (fun _ => false) x := by
    intro x _
    by_cases hp : itemPK x == "CHAT#" ++ toString chat_id
    · simp [hp]
    · simp [hp]
  rw [List.filter_congr this]
  simp

/-! ## Claims -/

/-- C1: `process_message` does append exactly two messages for a completed
call — first `user`/message — but the reply is persisted through
`save_message(chat_id, "assistant", response)`, not `save_response`, so the
second stored message has sender role `user` (with `"assistant"` recorded as
the username), contradicting the claimed `assistant` role. -/
theorem process_message_saves_reply_with_user_role (st : MemStore) (chat_id : Int)
    (username message reply : String) :
    (TelegramService.process_message_mem st chat_id username message (HttpOutcome.success reply)).1 chat_id
        = st chat_id ++ [Msg.mk "user" message, Msg.mk "user" reply]
    ∧ (TelegramService.process_message_mem st chat_id username message (HttpOutcome.success reply)).2 = reply
    ∧ (TelegramService.process_message_mem st chat_id username message (HttpOutcome.success reply)).1 chat_id
        ≠ st chat_id ++ [Msg.mk "user" message, Msg.mk "assistant" reply] := by
  have h1 : (TelegramService.process_message_mem st chat_id username message (HttpOutcome.success reply)).1 chat_id
      = st chat_id ++ [Msg.mk "user" message, Msg.mk "user" reply] := by
    simp [TelegramService.process_message_mem, MemoryAdapter.save_message,
      MistralClient.get_completion]
  refine ⟨h1, rfl, ?_⟩
  rw [h1]
  intro h
  have h2 := List.append_cancel_left h
  simp at h2

/-- C2: the partitioned-store round trip fails: `save_response` stores the
attributes `From`/`Content`, but `get_conversation` reads `is_bot`/`content`,
which are never written, so the retrieved message has sender `user` and empty
content instead of `assistant`/the saved text. -/
theorem dynamo_round_trip_loses_role_and_content :
    DynamoAdapter.get_conversation (DynamoAdapter.save_response [] 1 1 "hi") 1 10
        = Except.ok [Msg.mk "user" ""]
    ∧ (Except.ok [Msg.mk "user" ""] : Except DynErr (List Msg))
        ≠ Except.ok [Msg.mk "assistant" "hi"] :=
  ⟨rfl, fun h => absurd (Except.ok.inj h) (by decide)⟩

/-- C3 (amended): in the volatile variant the prompt handed to the provider is
the content of the last retrieved message, which is exactly the just-saved
inbound message; the history is the retrieved conversation minus that final
turn, and the request payload appends the prompt as the final user turn, so
the turn is never double-submitted. -/
theorem relay_prompt_is_last_retrieved_message_memory (st : MemStore) (chat_id : Int)
    (username message : String) :
    let conv := (MemoryAdapter.get_conversation
        (MemoryAdapter.save_message st chat_id username message) chat_id 5).2
    TelegramService.promptFrom conv = message
    ∧ conv.getLast? = some (Msg.mk "user" message)
    ∧ (TelegramService.conversationHistory conv).dropLast
        = TelegramService.conversationHistory conv.dropLast
    ∧ MistralClient.messagesPayload (TelegramService.promptFrom conv)
          ((TelegramService.conversationHistory conv).dropLast)
        = TelegramService.conversationHistory conv.dropLast ++ [RoleMsg.mk "user" message] := by
  intro conv
  have hsave : MemoryAdapter.save_message st chat_id username message chat_id
      = st chat_id ++ [Msg.mk "user" message] := by
    simp [MemoryAdapter.save_message]
  have hconv : conv = (st chat_id).drop ((st chat_id).length + 1 - 5) ++ [Msg.mk "user" message] := by
    show (MemoryAdapter.get_conversation
        (MemoryAdapter.save_message st chat_id username message) chat_id 5).2 = _
    simp only [MemoryAdapter.get_conversation]
    rw [hsave, if_pos (by norm_num : (0:Int) < 5)]
    rw [List.length_append]
    rw [drop_append_le _ _ (by simp)]
    simp
  rw [hconv]
  have hprompt : TelegramService.promptFrom
      ((st chat_id).drop ((st chat_id).length + 1 - 5) ++ [Msg.mk "user" message]) = message := by
    unfold TelegramService.promptFrom
    rw [List.getLast?_concat]
  have hhist : (TelegramService.conversationHistory
        ((st chat_id).drop ((st chat_id).length + 1 - 5) ++ [Msg.mk "user" message])).dropLast
      = TelegramService.conversationHistory
        (((st chat_id).drop ((st chat_id).length + 1 - 5) ++ [Msg.mk "user" message]).dropLast) := by
    simp [TelegramService.conversationHistory]
  refine ⟨hprompt, List.getLast?_concat _, hhist, ?_⟩
  unfold MistralClient.messagesPayload
  rw [hprompt, hhist]

/-- C3 counterexample: in the partitioned-store variant the prompt handed to
the provider is `""`, not the inbound text `"hello"`, because the retrieval
path loses the stored content. -/
theorem relay_prompt_diverges_on_dynamo :
    (TelegramService.prompt_history_dyn [] 1 7 "alice" "hello").1 = ""
    ∧ ("" : String) ≠ "hello" :=
  ⟨rfl, by decide⟩

/-- C4 (amended): with a non-positive limit the volatile variant returns the
full stored history, while the partitioned-store variant hands the value to
the backend query's `Limit`, whose parameter validation rejects anything
below 1, so `get_conversation` raises instead of returning the history. -/
theorem get_conversation_unbounded_memory_only (st : MemStore) (table : List Item)
    (chat_id limit : Int) (h : limit ≤ 0) :
    (MemoryAdapter.get_conversation st chat_id limit).2 = st chat_id
    ∧ DynamoAdapter.get_conversation table chat_id limit
        = Except.error DynErr.paramValidation := by
  constructor
  · show (if 0 < limit then (st chat_id).drop ((st chat_id).length - limit.toNat)
        else st chat_id) = st chat_id
    rw [if_neg (by omega)]
  · unfold DynamoAdapter.get_conversation
    rw [if_pos (by omega)]

theorem get_conversation_unbounded_memory_only_witness :
    (0 : Int) ≤ 0
    ∧ ((MemoryAdapter.get_conversation memEmpty 7 0).2 = memEmpty 7
       ∧ DynamoAdapter.get_conversation [] 7 0 = Except.error DynErr.paramValidation) :=
  ⟨by decide, get_conversation_unbounded_memory_only memEmpty [] 7 0 (by decide)⟩

/-- C4 counterexample: a chat with one stored message and `limit = 0` — the
partitioned-store variant raises a validation error and returns nothing,
rather than the full history the claim requires. -/
theorem dynamo_get_conversation_rejects_nonpositive_limit :
    DynamoAdapter.get_conversation (DynamoAdapter.save_message [] 5 7 "alice" "hi") 7 0
        = Except.error DynErr.paramValidation
    ∧ (Except.error DynErr.paramValidation : Except DynErr (List Msg))
        ≠ Except.ok [Msg.mk "user" "hi"] :=
  ⟨rfl, fun h => Except.noConfusion h⟩

/-- C5: bounding and suffix selection do hold in the volatile variant (at most
`k` messages, forming a suffix — hence the most recent, in original order) —
but in the partitioned-store variant the returned messages are not the saved
ones: with messages `"a"` (t=1) and `"b"` (t=2) stored for chat 9, a
`limit = 1` retrieval yields a message with empty content instead of `M2`. -/
theorem dynamo_bounded_get_returns_mangled_message :
    (∀ (st : MemStore) (chat_id : Int) (k : Nat),
        ((MemoryAdapter.get_conversation st chat_id ((k : Int) + 1)).2).length ≤ k + 1
        ∧ ∃ pre, st chat_id = pre ++ (MemoryAdapter.get_conversation st chat_id ((k : Int) + 1)).2)
    ∧ DynamoAdapter.get_conversation
        (DynamoAdapter.save_message (DynamoAdapter.save_message [] 1 9 "alice" "a") 2 9 "alice" "b") 9 1
        = Except.ok [Msg.mk "user" ""]
    ∧ (Except.ok [Msg.mk "user" ""] : Except DynErr (List Msg))
        ≠ Except.ok [Msg.mk "user" "b"] := by
  refine ⟨?_, rfl, fun h => absurd (Except.ok.inj h) (by decide)⟩
  intro st chat_id k
  have htoNat : ((k : Int) + 1).toNat = k + 1 := by omega
  have hpos : (0 : Int) < (k : Int) + 1 := by omega
  constructor
  · show (if 0 < (k : Int) + 1 then
        (st chat_id).drop ((st chat_id).length - ((k : Int) + 1).toNat)
      else st chat_id).length ≤ k + 1
    rw [if_pos hpos, htoNat, List.length_drop]
    omega
  · refine ⟨(st chat_id).take ((st chat_id).length - ((k : Int) + 1).toNat), ?_⟩
    show st chat_id = _ ++ (if 0 < (k : Int) + 1 then
        (st chat_id).drop ((st chat_id).length - ((k : Int) + 1).toNat)
      else st chat_id)
    rw [if_pos hpos]
    exact (List.take_append_drop _ _).symm

/-- C6 (amended): whatever the collaborators do — saves failing, retrieval
failing, the provider call succeeding or raising — `process_message` returns a
string: either the provider's reply text or the generation fallback; under the
assumption that every successful provider reply is non-empty, the returned
string is non-empty (the fallback itself is non-empty). -/
theorem process_message_total_reply (saveB : Outcome Unit) (convB : Outcome (List Msg))
    (complB : String → List RoleMsg → Outcome String) (saveRespB : String → Outcome Unit)
    (chat_id : Int) (username message : String)
    (hne : ∀ p h s, complB p h = Outcome.ok s → s ≠ "") :
    TelegramService.process_message_gen saveB convB complB saveRespB chat_id username message ≠ ""
    ∧ (TelegramService.process_message_gen saveB convB complB saveRespB chat_id username message
          = TelegramService.fallbackGeneration
       ∨ ∃ p h, complB p h
          = Outcome.ok (TelegramService.process_message_gen saveB convB complB saveRespB
              chat_id username message)) := by
  simp only [TelegramService.process_message_gen]
  set conversation : List Msg :=
    (match convB with
     | Outcome.ok l => l
     | Outcome.exn => []) with hconvdef
  set P := TelegramService.promptFrom conversation with hP
  set H := (TelegramService.conversationHistory conversation).dropLast with hH
  cases hcall : complB P H with
  | ok s =>
      dsimp only
      cases hs : saveRespB s with
      | ok u =>
          dsimp only
          exact ⟨hne P H s hcall, Or.inr ⟨P, H, hcall⟩⟩
      | exn =>
          dsimp only
          exact ⟨hne P H s hcall, Or.inr ⟨P, H, hcall⟩⟩
  | exn =>
      dsimp only
      exact ⟨by decide, Or.inl rfl⟩

theorem process_message_total_reply_witness :
    TelegramService.process_message_gen (Outcome.ok ()) (Outcome.ok [])
        (fun _ _ => Outcome.ok "bonjour") (fun _ => Outcome.ok ()) 1 "alice" "salut" ≠ ""
    ∧ (TelegramService.process_message_gen (Outcome.ok ()) (Outcome.ok [])
          (fun _ _ => Outcome.ok "bonjour") (fun _ => Outcome.ok ()) 1 "alice" "salut"
          = TelegramService.fallbackGeneration
       ∨ ∃ p h, (fun (_ : String) (_ : List RoleMsg) => Outcome.ok "bonjour") p h
          = Outcome.ok (TelegramService.process_message_gen (Outcome.ok ()) (Outcome.ok [])
              (fun _ _ => Outcome.ok "bonjour") (fun _ => Outcome.ok ()) 1 "alice" "salut")) :=
  process_message_total_reply (Outcome.ok ()) (Outcome.ok [])
    (fun _ _ => Outcome.ok "bonjour") (fun _ => Outcome.ok ()) 1 "alice" "salut"
    (fun p h s hs => by injection hs with h2; subst h2; decide)

/-- C6 counterexample: a provider behaviour that succeeds with an empty
completion text makes `process_message` return the empty string — the reply is
not always non-empty. -/
theorem process_message_empty_reply_on_empty_completion :
    TelegramService.process_message_gen (Outcome.ok ()) (Outcome.ok [])
      (fun _ _ => Outcome.ok "") (fun _ => Outcome.ok ()) 1 "alice" "salut" = "" := rfl

/-- C7: `get_completion` never raises in these failure classes, but the
authentication class is not distinguishable: for an HTTP 401 the source guards
the dedicated message by the truthiness of `e.response`, which is `status_code
< 400` and therefore false for every error response, so a 401 yields the same
generic HTTP fallback as any other HTTP error — contradicting the claim that
the failure class is recoverable from the returned string. -/
theorem http_401_fallback_not_distinct :
    MistralClient.get_completion (HttpOutcome.httpError 401) "salut" []
        = MistralClient.fallbackHttp
    ∧ MistralClient.get_completion (HttpOutcome.httpError 500) "salut" []
        = MistralClient.fallbackHttp
    ∧ MistralClient.fallbackHttp ≠ MistralClient.fallbackAuth :=
  ⟨by decide, by decide, by decide⟩

/-- C8 (amended): `reset_conversation` empties the history and is idempotent
in both variants; an ensuing `get_conversation` returns the empty sequence for
every limit in the volatile variant and for every positive limit in the
partitioned-store variant (a non-positive limit is rejected by the backend
query's parameter validation there). -/
theorem reset_conversation_idempotent_empty (st : MemStore) (table : List Item)
    (chat_id limit : Int) :
    (MemoryAdapter.get_conversation (MemoryAdapter.reset_conversation st chat_id) chat_id limit).2 = []
    ∧ MemoryAdapter.reset_conversation (MemoryAdapter.reset_conversation st chat_id) chat_id
        = MemoryAdapter.reset_conversation st chat_id
    ∧ (1 ≤ limit →
        DynamoAdapter.get_conversation (DynamoAdapter.reset_conversation table chat_id) chat_id limit
          = Except.ok [])
    ∧ DynamoAdapter.reset_conversation (DynamoAdapter.reset_conversation table chat_id) chat_id
        = DynamoAdapter.reset_conversation table chat_id := by
  refine ⟨?_, ?_, ?_, ?_⟩
  · have hc : MemoryAdapter.reset_conversation st chat_id chat_id = [] := by
      simp [MemoryAdapter.reset_conversation]
    show (if 0 < limit then (MemoryAdapter.reset_conversation st chat_id chat_id).drop
        ((MemoryAdapter.reset_conversation st chat_id chat_id).length - limit.toNat)
      else MemoryAdapter.reset_conversation st chat_id chat_id) = []
    rw [hc]
    by_cases h : (0 : Int) < limit <;> simp [h]
  · funext c
    by_cases h : c = chat_id <;> simp [MemoryAdapter.reset_conversation, h]
  · intro hl
    simp only [DynamoAdapter.get_conversation]
    rw [if_neg (by omega), queryChat_reset]
    simp
  · simp only [reset_eq_filter, List.filter_filter]
    apply List.filter_congr
    intro x _
    exact Bool.and_self _

theorem reset_conversation_idempotent_empty_witness :
    (MemoryAdapter.get_conversation (MemoryAdapter.reset_conversation memEmpty 7) 7 1).2 = []
    ∧ DynamoAdapter.get_conversation (DynamoAdapter.reset_conversation [] 7) 7 1 = Except.ok [] :=
  ⟨(reset_conversation_idempotent_empty memEmpty [] 7 1).1,
   (reset_conversation_idempotent_empty memEmpty [] 7 1).2.2.1 (by decide)⟩

/-- C8 counterexample: after a reset in the partitioned-store variant, a
`get_conversation` with limit 0 raises the validation error instead of
returning an empty sequence — so "for any limit" fails. -/
theorem dynamo_get_after_reset_nonpositive_limit_raises :
    DynamoAdapter.get_conversation
        (DynamoAdapter.reset_conversation (DynamoAdapter.save_message [] 5 7 "u" "x") 7) 7 0
      = Except.error DynErr.paramValidation
    ∧ (Except.error DynErr.paramValidation : Except DynErr (List Msg)) ≠ Except.ok [] :=
  ⟨rfl, fun h => Except.noConfusion h⟩

/-- C9: two saves for the same chat that compute the same millisecond
timestamp write items with the identical composite key `(CHAT#chat_id,
MSG#timestamp)`, so the second `put_item` overwrites the first: the pair of
saves leaves the table exactly as a single put of the second item would, and
from an empty table exactly one stored item remains. -/
theorem dynamo_same_timestamp_overwrites (table : List Item) (t chat_id : Int)
    (username message response : String) :
    DynamoAdapter.save_response
        (DynamoAdapter.save_message table t chat_id username message) t chat_id response
        = putItem table (DynamoAdapter.responseItem t chat_id response)
    ∧ (DynamoAdapter.save_response
        (DynamoAdapter.save_message [] t chat_id username message) t chat_id response).length = 1 := by
  have hkey : itemKey (DynamoAdapter.messageItem t chat_id username message)
      = itemKey (DynamoAdapter.responseItem t chat_id response) := rfl
  constructor
  · exact putItem_overwrite table _ _ hkey
  · show (putItem (putItem []
        (DynamoAdapter.messageItem t chat_id username message))
        (DynamoAdapter.responseItem t chat_id response)).length = 1
    rw [putItem_overwrite [] _ _ hkey]
    rfl

/-- C10: in the volatile variant every operation on a chat leaves every other
chat's stored history untouched, and `get_conversation` returns the store it
was given unchanged. -/
theorem memory_adapter_frame (st : MemStore) (c c' : Int) (u m r : String) (limit : Int)
    (h : c' ≠ c) :
    MemoryAdapter.save_message st c u m c' = st c'
    ∧ MemoryAdapter.save_response st c r c' = st c'
    ∧ MemoryAdapter.reset_conversation st c c' = st c'
    ∧ (MemoryAdapter.get_conversation st c limit).1 = st := by
  refine ⟨?_, ?_, ?_, rfl⟩ <;>
    simp [MemoryAdapter.save_message, MemoryAdapter.save_response,
      MemoryAdapter.reset_conversation, h]

theorem memory_adapter_frame_witness :
    (2 : Int) ≠ 1
    ∧ (MemoryAdapter.save_message memEmpty 1 "u" "m" 2 = memEmpty 2
       ∧ MemoryAdapter.save_response memEmpty 1 "r" 2 = memEmpty 2
       ∧ MemoryAdapter.reset_conversation memEmpty 1 2 = memEmpty 2
       ∧ (MemoryAdapter.get_conversation memEmpty 1 3).1 = memEmpty) :=
  ⟨by decide, memory_adapter_frame memEmpty 1 2 "u" "m" "r" 3 (by decide)⟩

